import Mathlib

/-!
Verification of the aircraft-data ingestion pipeline of the AviationWorks
flight tracker (`src/app.py`): OAuth2 token cache, authenticated request with
one retry on 401, state-vector decoding, filtering, track fetch, and the
JSON presentation layer.

The Python code is shallowly embedded: the mutable token globals become an
explicit `TokenState` threaded through the functions; network and clock
effects become explicit parameters (the outcome each `requests` call /
`time.time()` call would have produced); machine floats in altitude fields
are modelled as integers, since every property proved here is purely
order-theoretic.  JSON values appearing in upstream payloads are modelled by
the small inductive `JVal`, with Python truthiness and `==` reproduced on it.
-/

/-- A JSON scalar as it appears in OpenSky payload positions: `null`, a
string, a number, or a boolean.  Numbers are modelled as integers. -/
inductive JVal where
  | null : JVal
  | str (s : String) : JVal
  | int (n : Int) : JVal
  | bool (b : Bool) : JVal
  deriving Repr, DecidableEq

/-- Python truthiness on a `JVal` (`None`, `""`, `0`, `False` are falsy). -/
def pyTruthy : JVal → Bool
  | JVal.null => false
  | JVal.str s => s != ""
  | JVal.int n => n != 0
  | JVal.bool b => b

/-- Python `==` on `JVal`s: values of the same kind compare componentwise,
booleans and numbers compare numerically (`True == 1`), everything else is
unequal. -/
def pyEq : JVal → JVal → Bool
  | JVal.null, JVal.null => true
  | JVal.str a, JVal.str b => a == b
  | JVal.int a, JVal.int b => a == b
  | JVal.bool a, JVal.bool b => a == b
  | JVal.int a, JVal.bool b => a == (if b then (1 : Int) else 0)
  | JVal.bool a, JVal.int b => (if a then (1 : Int) else 0) == b
  | _, _ => false

/-- Python `a or b` on `JVal`s: `a` when truthy, else `b`. -/
def pyOr (a b : JVal) : JVal := if pyTruthy a then a else b

/-- Python `a or b` where `a` is an optional string from the query layer
(`request.args.get(...)`): `None` and `""` fall through to the default. -/
def pyOrStr (a : Option String) (b : String) : String :=
  match a with
  | some s => if s != "" then s else b
  | none => b

/-- The numeric value Python arithmetic comparison sees: a number is itself,
a boolean is 0/1; anything else has none (comparing it would raise, which
only an off-schema upstream payload could trigger). -/
def pyNum : JVal → Option Int
  | JVal.int n => some n
  | JVal.bool b => some (if b then 1 else 0)
  | _ => none

/-- Python `v >= m` for a payload value against a numeric threshold. -/
def pyGe (v : JVal) (m : Int) : Bool :=
  match pyNum v with
  | some n => decide (m ≤ n)
  | none => false

/-- Python `v <= m` for a payload value against a numeric threshold. -/
def pyLe (v : JVal) (m : Int) : Bool :=
  match pyNum v with
  | some n => decide (n ≤ m)
  | none => false

/-- Does the first character list start with the second one? -/
def leadMatch : List Char → List Char → Bool
  | _, [] => true
  | [], _ :: _ => false
  | a :: as, b :: bs => a == b && leadMatch as bs

/-- Does the first character list contain the second as a contiguous run? -/
def hasSub : List Char → List Char → Bool
  | [], needle => needle.isEmpty
  | h :: t, needle => leadMatch (h :: t) needle || hasSub t needle

/-- Python `needle in hay` on strings (contiguous substring test). -/
def strContains (hay needle : String) : Bool :=
  hasSub hay.toList needle.toList

/-- Python `s.upper()` (ASCII range, which covers every callsign the
upstream API emits). -/
def pyUpper (s : String) : String :=
  String.mk (s.toList.map Char.toUpper)

/-- An ASCII whitespace character (what `.strip()` removes from the
fixed-width callsign field). -/
def isWs (c : Char) : Bool :=
  c == ' ' || c == '\t' || c == '\n' || c == '\r'

/-- Python `s.strip()`: drop leading and trailing whitespace. -/
def pyStrip (s : String) : String :=
  String.mk (((s.toList.dropWhile isWs).reverse.dropWhile isWs).reverse)

/-! ## Token cache (`get_access_token`, src/app.py lines 45-66) -/

/-- The two module-level globals guarded by `token_lock`:
`access_token` and `token_expires_at`. -/
structure TokenState where
  access_token : Option String
  token_expires_at : Int
  deriving Repr, DecidableEq

/-- Line 49's cache test `if access_token and ...`: the cached value is a
usable token exactly when it is present and non-empty (Python truthiness). -/
def hasToken (st : TokenState) : Bool :=
  match st.access_token with
  | some s => s != ""
  | none => false

/-- Outcome of one client-credentials POST to the auth endpoint, as observed
by the `try` block of `get_access_token`:
`ok tok ei` is a 2xx response whose JSON body carries `access_token = tok`
and, optionally, `expires_in = ei`; `err` is any failure the `except` catches
(transport error, `raise_for_status` on a non-2xx, undecodable JSON, or a
body lacking `access_token`). -/
inductive ExchangeResult where
  | ok (tok : String) (expires_in : Option Int) : ExchangeResult
  | err : ExchangeResult
  deriving Repr, DecidableEq

/-- `get_access_token`: `now` is the `time.time()` of the cache test (line
49) and `nowExp` the `time.time()` of the expiry computation (line 61);
`ex` is what the exchange would return if attempted.  Result: the returned
token, the updated globals, and how many network calls were made. -/
def get_access_token (st : TokenState) (now nowExp : Int) (ex : ExchangeResult) :
    Option String × TokenState × Nat :=
  if hasToken st && decide (now < st.token_expires_at - 60) then
    (st.access_token, st, 0)
  else
    match ex with
    | ExchangeResult.ok tok ei =>
        (some tok, ⟨some tok, nowExp + ei.getD 1800⟩, 1)
    | ExchangeResult.err => (none, st, 1)

/-! ## Authenticated request (`make_opensky_request`, src/app.py lines 69-89) -/

/-- Outcome of one GET against an API endpoint: `ok b` is a 2xx response
decoding to body `b`; `unauthorized` is a 401; `err` is any other failure
(non-2xx raised by `raise_for_status`, transport error, undecodable JSON). -/
inductive HttpResp (α : Type) where
  | ok (body : α) : HttpResp α
  | unauthorized : HttpResp α
  | err : HttpResp α
  deriving Repr, DecidableEq

/-- The environment a single `make_opensky_request` call runs against: the
successive `time.time()` values its (up to two) `get_access_token` calls
read, the outcomes the (up to two) token exchanges would have, and the
outcomes the (up to two) endpoint GETs would have. -/
structure ReqEnv (α : Type) where
  t1 : Int
  t2 : Int
  t3 : Int
  t4 : Int
  ex1 : ExchangeResult
  ex2 : ExchangeResult
  r1 : HttpResp α
  r2 : HttpResp α

/-- Observable trace of a `make_opensky_request` call: the returned payload,
the final token globals, the number of token-exchange POSTs, the number of
endpoint GETs, and the bearer tokens attached to those GETs in order. -/
structure ReqTrace (α : Type) where
  result : Option α
  st : TokenState
  authCalls : Nat
  epCalls : Nat
  tokensUsed : List String
  deriving Repr

/-- Line 72's `if not token` on the value returned by `get_access_token`. -/
def tokenTruthy : Option String → Bool
  | some s => s != ""
  | none => false

/-- `make_opensky_request`: obtain a token, GET once, and on a 401 obtain a
token again (through the same cache-honouring `get_access_token`) and retry
exactly once; any failure of the second response is terminal (`except` →
`None`). -/
def make_opensky_request {α : Type} (st : TokenState) (env : ReqEnv α) : ReqTrace α :=
  let g1 := get_access_token st env.t1 env.t2 env.ex1
  if !tokenTruthy g1.1 then
    ⟨none, g1.2.1, g1.2.2, 0, []⟩
  else
    let tok := g1.1.getD ""
    match env.r1 with
    | HttpResp.ok b => ⟨some b, g1.2.1, g1.2.2, 1, [tok]⟩
    | HttpResp.err => ⟨none, g1.2.1, g1.2.2, 1, [tok]⟩
    | HttpResp.unauthorized =>
      let g2 := get_access_token g1.2.1 env.t3 env.t4 env.ex2
      if !tokenTruthy g2.1 then
        ⟨none, g2.2.1, g1.2.2 + g2.2.2, 1, [tok]⟩
      else
        let tok2 := g2.1.getD ""
        match env.r2 with
        | HttpResp.ok b => ⟨some b, g2.2.1, g1.2.2 + g2.2.2, 2, [tok, tok2]⟩
        | HttpResp.unauthorized => ⟨none, g2.2.1, g1.2.2 + g2.2.2, 2, [tok, tok2]⟩
        | HttpResp.err => ⟨none, g2.2.1, g1.2.2 + g2.2.2, 2, [tok, tok2]⟩

/-! ## State decoding (`fetch_all_aircraft_states`, src/app.py lines 109-141) -/

/-- One raw positional state vector from the `states` array. -/
def RawState : Type := List JVal

/-- The dict built for one raw state vector (lines 120-139).  `callsign` is
always a genuine string (`(s[1] or '').strip() or 'N/A'`); the remaining
fields store the raw payload values. -/
structure AircraftState where
  icao24 : JVal
  callsign : String
  origin_country : JVal
  time_position : JVal
  last_contact : JVal
  longitude : JVal
  latitude : JVal
  baro_altitude : JVal
  on_ground : JVal
  velocity : JVal
  true_track : JVal
  vertical_rate : JVal
  sensors : JVal
  geo_altitude : JVal
  squawk : JVal
  spi : JVal
  position_source : JVal
  category : JVal
  deriving Repr, DecidableEq

/-- `(v or '').strip() or 'N/A'` for the callsign slot.  A non-string,
non-null callsign is outside the upstream schema (Python would raise on
`.strip()`); it is mapped to the placeholder here. -/
def decodeCallsign (v : JVal) : String :=
  match pyOr v (JVal.str "") with
  | JVal.str s => if pyStrip s != "" then pyStrip s else "N/A"
  | _ => "N/A"

/-- Decode one raw state vector of length ≥ 17 into the dict of lines
120-139.  Positions 0-16 are read directly; `category` is `s[17]` when the
vector has more than 17 positions and `None` otherwise. -/
def decodeState (s : RawState) : AircraftState :=
  { icao24 := s.getD 0 JVal.null
    callsign := decodeCallsign (s.getD 1 JVal.null)
    origin_country := pyOr (s.getD 2 JVal.null) (JVal.str "Unknown")
    time_position := s.getD 3 JVal.null
    last_contact := s.getD 4 JVal.null
    longitude := s.getD 5 JVal.null
    latitude := s.getD 6 JVal.null
    baro_altitude := s.getD 7 JVal.null
    on_ground := s.getD 8 JVal.null
    velocity := s.getD 9 JVal.null
    true_track := s.getD 10 JVal.null
    vertical_rate := s.getD 11 JVal.null
    sensors := s.getD 12 JVal.null
    geo_altitude := s.getD 13 JVal.null
    squawk := s.getD 14 JVal.null
    spi := s.getD 15 JVal.null
    position_source := s.getD 16 JVal.null
    category := if 17 < s.length then s.getD 17 JVal.null else JVal.null }

/-- The `for s in resp['states']` loop (lines 117-139): append the decoded
record when the vector has at least 17 positions, silently skip otherwise. -/
def decodeLoop : List RawState → List AircraftState
  | [] => []
  | s :: rest =>
      if 17 ≤ s.length then decodeState s :: decodeLoop rest
      else decodeLoop rest

/-- `fetch_all_aircraft_states`, abstracted over the network: the parameter
is `some states` when `make_opensky_request` returned a truthy payload
containing a `states` key, and `none` when the request failed, the payload
was falsy, or the key was absent — all of which return `[]` (lines 115-116). -/
def fetch_all_aircraft_states (resp : Option (List RawState)) : List AircraftState :=
  match resp with
  | none => []
  | some states => decodeLoop states

/-! ## Category display names (`get_aircraft_category_name`, lines 144-152) -/

/-- The literal `categories` dict of lines 145-151. -/
def categoriesTable : List (Int × String) :=
  [(0, "No information"), (1, "No ADS-B info"), (2, "Light (< 15,500 lbs)"),
   (3, "Small (15,500-75,000 lbs)"), (4, "Large (75,000-300,000 lbs)"),
   (5, "High Vortex Large"), (6, "Heavy (> 300,000 lbs)"), (7, "High Performance"),
   (8, "Rotorcraft"), (9, "Glider/Sailplane"), (10, "Lighter-than-air"),
   (11, "Parachutist/Skydiver"), (12, "Ultralight"), (13, "Reserved"),
   (14, "UAV/Drone"), (15, "Space Vehicle"), (16, "Emergency Vehicle"),
   (17, "Service Vehicle"), (18, "Point Obstacle"), (19, "Cluster Obstacle"),
   (20, "Line Obstacle")]

/-- `categories.get(category, "Unknown")`: `None` is not a key, and any
integer outside the table falls back to `"Unknown"`. -/
def get_aircraft_category_name (category : Option Int) : String :=
  match category with
  | none => "Unknown"
  | some c => (categoriesTable.lookup c).getD "Unknown"

/-! ## Track fetch (`fetch_live_track`, src/app.py lines 92-107) -/

/-- One waypoint of a track path, per the upstream tuple documented at line
103: `[time, lat, lon, baro_altitude, true_track, on_ground]`.  The two
coordinates may each be null. -/
structure Waypoint where
  wtime : JVal
  lat : Option Int
  lon : Option Int
  wbaro : JVal
  wtrack : JVal
  wground : JVal
  deriving Repr, DecidableEq

/-- `fetch_live_track`, abstracted over the network: `resp` is `some path`
when the request succeeded with a truthy payload containing a `path` key,
`none` otherwise (request failure, falsy payload, or missing key — lines
99-100 return `[]` for all of these).  An empty identifier short-circuits
to `[]` (lines 96-97); otherwise waypoints with both coordinates present
are kept, in upstream order, as `(lat, lon)` pairs. -/
def fetch_live_track (icao24 : String) (resp : Option (List Waypoint)) :
    List (Int × Int) :=
  if icao24 = "" then []
  else
    match resp with
    | none => []
    | some path =>
      path.filterMap (fun wp =>
        match wp.lat, wp.lon with
        | some la, some lo => some (la, lo)
        | _, _ => none)

/-! ## Filtering (`filter_aircraft`, src/app.py lines 247-263) -/

/-- The `filters` dict after the endpoints' `{k: v for k, v in ... if v is
not None}` comprehension: a field is `none` exactly when the key is absent. -/
structure FilterSpec where
  callsign_pattern : Option String := none
  country : Option JVal := none
  category : Option JVal := none
  min_altitude : Option Int := none
  max_altitude : Option Int := none
  on_ground : Option Bool := none
  deriving Repr, DecidableEq

/-- Lines 250-252: `if filters.get('callsign_pattern'):` (truthy — an empty
pattern imposes nothing), then case-insensitive substring match against the
callsign.  `(x['callsign'] or '')` is the identity on the string field. -/
def csStage (f : FilterSpec) (data : List AircraftState) : List AircraftState :=
  match f.callsign_pattern with
  | some p =>
      if p = "" then data
      else data.filter (fun x => strContains (pyUpper x.callsign) (pyUpper p))
  | none => data

/-- Lines 253-254: truthy country, exact `==`. -/
def coStage (f : FilterSpec) (data : List AircraftState) : List AircraftState :=
  match f.country with
  | some c => if pyTruthy c then data.filter (fun x => pyEq x.origin_country c) else data
  | none => data

/-- Lines 255-256: `is not None` category, exact `==`. -/
def caStage (f : FilterSpec) (data : List AircraftState) : List AircraftState :=
  match f.category with
  | some c => data.filter (fun x => pyEq x.category c)
  | none => data

/-- Lines 257-258: `is not None` bound; aircraft with `None` altitude fail. -/
def miStage (f : FilterSpec) (data : List AircraftState) : List AircraftState :=
  match f.min_altitude with
  | some m => data.filter (fun x => !(x.baro_altitude = JVal.null) && pyGe x.baro_altitude m)
  | none => data

/-- Lines 259-260: `is not None` bound; aircraft with `None` altitude fail. -/
def maStage (f : FilterSpec) (data : List AircraftState) : List AircraftState :=
  match f.max_altitude with
  | some m => data.filter (fun x => !(x.baro_altitude = JVal.null) && pyLe x.baro_altitude m)
  | none => data

/-- Lines 261-262: `is not None` ground flag, `==` against a boolean. -/
def grStage (f : FilterSpec) (data : List AircraftState) : List AircraftState :=
  match f.on_ground with
  | some b => data.filter (fun x => pyEq x.on_ground (JVal.bool b))
  | none => data

/-- `filter_aircraft`: the six conditional narrowing passes of lines
249-263, applied in source order to the running `data` binding. -/
def filter_aircraft (aircraft : List AircraftState) (filters : FilterSpec) :
    List AircraftState :=
  grStage filters (maStage filters (miStage filters (caStage filters
    (coStage filters (csStage filters aircraft)))))

/-! ## Endpoint filter construction (src/app.py lines 275-283, 299-307,
332-340): all three aircraft endpoints build the same `filters` dict.  The
query layer hands over each parameter as `none` when absent (or, for the
typed ones, unparseable); `request.args.get('callsign') or 'EJA'` makes the
callsign pattern default to `'EJA'` when the parameter is absent or empty.
The `{k: v for k, v in filters.items() if v is not None}` comprehension is
the `Option` structure of `FilterSpec` itself. -/

/-- The query parameters an aircraft endpoint reads. -/
structure QueryArgs where
  callsign : Option String := none
  country : Option String := none
  category : Option Int := none
  min_alt : Option Int := none
  max_alt : Option Int := none
  ground : Option Bool := none
  deriving Repr, DecidableEq

/-- `filters` as built by `api_aircraft` (lines 275-283). -/
def apiAircraftFilters (q : QueryArgs) : FilterSpec :=
  { callsign_pattern := some (pyOrStr q.callsign "EJA")
    country := q.country.map JVal.str
    category := q.category.map JVal.int
    min_altitude := q.min_alt
    max_altitude := q.max_alt
    on_ground := q.ground }

/-- `filters` as built by `api_map` (lines 299-307), textually identical to
the `api_aircraft` construction. -/
def apiMapFilters (q : QueryArgs) : FilterSpec :=
  { callsign_pattern := some (pyOrStr q.callsign "EJA")
    country := q.country.map JVal.str
    category := q.category.map JVal.int
    min_altitude := q.min_alt
    max_altitude := q.max_alt
    on_ground := q.ground }

/-- `filters` as built by `api_tracks_bulk` (lines 332-340), textually
identical to the `api_aircraft` construction. -/
def apiTracksFilters (q : QueryArgs) : FilterSpec :=
  { callsign_pattern := some (pyOrStr q.callsign "EJA")
    country := q.country.map JVal.str
    category := q.category.map JVal.int
    min_altitude := q.min_alt
    max_altitude := q.max_alt
    on_ground := q.ground }

/-! ## Aircraft JSON endpoint (`api_aircraft`, src/app.py lines 272-293) -/

/-- The JSON object `api_aircraft` serializes. -/
structure AircraftJson where
  in_air : List AircraftState
  on_ground : List AircraftState
  total : Nat
  timestamp : Int
  deriving Repr, DecidableEq

/-- The body of `api_aircraft` after the `filters` dict is built: fetch,
return the empty payload when nothing was fetched (line 286), otherwise
filter and partition by the truthiness of `on_ground` (lines 288-293).
`ts` stands for `datetime.now().isoformat()`. -/
def api_aircraft (resp : Option (List RawState)) (filters : FilterSpec)
    (ts : Int) : AircraftJson :=
  if (fetch_all_aircraft_states resp).isEmpty then
    { in_air := [], on_ground := [], total := 0, timestamp := ts }
  else
    { in_air := (filter_aircraft (fetch_all_aircraft_states resp) filters).filter
        (fun x => !pyTruthy x.on_ground)
      on_ground := (filter_aircraft (fetch_all_aircraft_states resp) filters).filter
        (fun x => pyTruthy x.on_ground)
      total := (filter_aircraft (fetch_all_aircraft_states resp) filters).length
      timestamp := ts }

/-! ## Predicate view of the filter stages -/

/-- The callsign constraint as a predicate (`true` when absent or empty). -/
def csPred (f : FilterSpec) (x : AircraftState) : Bool :=
  match f.callsign_pattern with
  | some p => if p = "" then true else strContains (pyUpper x.callsign) (pyUpper p)
  | none => true

/-- The country constraint as a predicate (`true` when absent or falsy). -/
def coPred (f : FilterSpec) (x : AircraftState) : Bool :=
  match f.country with
  | some c => if pyTruthy c then pyEq x.origin_country c else true
  | none => true

/-- The category constraint as a predicate (`true` when absent). -/
def caPred (f : FilterSpec) (x : AircraftState) : Bool :=
  match f.category with
  | some c => pyEq x.category c
  | none => true

/-- The minimum-altitude constraint as a predicate (`true` when absent). -/
def miPred (f : FilterSpec) (x : AircraftState) : Bool :=
  match f.min_altitude with
  | some m => !(x.baro_altitude = JVal.null) && pyGe x.baro_altitude m
  | none => true

/-- The maximum-altitude constraint as a predicate (`true` when absent). -/
def maPred (f : FilterSpec) (x : AircraftState) : Bool :=
  match f.max_altitude with
  | some m => !(x.baro_altitude = JVal.null) && pyLe x.baro_altitude m
  | none => true

/-- The ground-flag constraint as a predicate (`true` when absent). -/
def grPred (f : FilterSpec) (x : AircraftState) : Bool :=
  match f.on_ground with
  | some b => pyEq x.on_ground (JVal.bool b)
  | none => true

/-- The conjunction of the six constraints of a filter spec. -/
def matchesFilters (f : FilterSpec) (x : AircraftState) : Bool :=
  grPred f x && maPred f x && miPred f x && caPred f x && coPred f x && csPred f x

lemma csStage_eq (f : FilterSpec) (l : List AircraftState) :
    csStage f l = l.filter (csPred f) := by
  unfold csStage csPred
  cases f.callsign_pattern with
  | none => exact (List.filter_true l).symm
  | some p =>
    by_cases hp : p = "" <;> simp [hp]

lemma coStage_eq (f : FilterSpec) (l : List AircraftState) :
    coStage f l = l.filter (coPred f) := by
  unfold coStage coPred
  cases f.country with
  | none => exact (List.filter_true l).symm
  | some c =>
    by_cases hc : pyTruthy c <;> simp [hc]

lemma caStage_eq (f : FilterSpec) (l : List AircraftState) :
    caStage f l = l.filter (caPred f) := by
  unfold caStage caPred
  cases f.category with
  | none => exact (List.filter_true l).symm
  | some c => rfl

lemma miStage_eq (f : FilterSpec) (l : List AircraftState) :
    miStage f l = l.filter (miPred f) := by
  unfold miStage miPred
  cases f.min_altitude with
  | none => exact (List.filter_true l).symm
  | some m => rfl

lemma maStage_eq (f : FilterSpec) (l : List AircraftState) :
    maStage f l = l.filter (maPred f) := by
  unfold maStage maPred
  cases f.max_altitude with
  | none => exact (List.filter_true l).symm
  | some m => rfl

lemma grStage_eq (f : FilterSpec) (l : List AircraftState) :
    grStage f l = l.filter (grPred f) := by
  unfold grStage grPred
  cases f.on_ground with
  | none => exact (List.filter_true l).symm
  | some b => rfl

/-- `filter_aircraft` is the single pass filtering on the conjunction of
the six constraints. -/
lemma filter_aircraft_eq (l : List AircraftState) (f : FilterSpec) :
    filter_aircraft l f = l.filter (matchesFilters f) := by
  unfold filter_aircraft matchesFilters
  rw [csStage_eq, coStage_eq, caStage_eq, miStage_eq, maStage_eq, grStage_eq,
    List.filter_filter, List.filter_filter, List.filter_filter,
    List.filter_filter, List.filter_filter]

/-! ## Shared test fixtures and helper lemmas -/

/-- A minimal aircraft record for examples: everything null except the
callsign, altitude and ground flag under test. -/
def testState (cs : String) (alt : JVal) (gnd : Bool) : AircraftState :=
  { icao24 := JVal.null, callsign := cs, origin_country := JVal.str "United States"
    time_position := JVal.null, last_contact := JVal.null, longitude := JVal.null
    latitude := JVal.null, baro_altitude := alt, on_ground := JVal.bool gnd
    velocity := JVal.null, true_track := JVal.null, vertical_rate := JVal.null
    sensors := JVal.null, geo_altitude := JVal.null, squawk := JVal.null
    spi := JVal.null, position_source := JVal.null, category := JVal.null }

/-- First record of the spec's altitude example: altitude 5000, in air. -/
def exAlt1 : AircraftState := testState "AAA1" (JVal.int 5000) false

/-- Second record: unknown altitude, in air. -/
def exAlt2 : AircraftState := testState "AAA2" JVal.null false

/-- Third record: altitude 12000, on ground. -/
def exAlt3 : AircraftState := testState "AAA3" (JVal.int 12000) true

/-- The spec's callsign example records. -/
def exEJA1 : AircraftState := testState "EJA123" (JVal.int 5000) false

/-- Callsign example record that must be filtered out. -/
def exUAL : AircraftState := testState "UAL45" (JVal.int 5000) false

/-- Lower-case callsign example record. -/
def exEJA2 : AircraftState := testState "eja999" (JVal.int 5000) false

/-- A lookup into an association list whose keys all lie in `[0, 20]`
misses every key outside that interval. -/
lemma lookup_none_outside (c : Int) (t : List (Int × String))
    (h : ∀ p ∈ t, 0 ≤ p.1 ∧ p.1 ≤ 20) (hc : c < 0 ∨ 20 < c) :
    t.lookup c = none := by
  induction t with
  | nil => rfl
  | cons p t ih =>
    have hp := h p (List.mem_cons_self p t)
    have hne : (c == p.1) = false := by
      simp only [beq_eq_false_iff_ne, ne_eq]
      omega
    simp only [List.lookup, hne]
    exact ih (fun q hq => h q (List.mem_cons_of_mem p hq))

/-- A `filterMap` extracting both coordinates equals filtering on the
presence of both and projecting them. -/
lemma trackCoords_eq (path : List Waypoint) :
    path.filterMap (fun wp =>
      match wp.lat, wp.lon with
      | some la, some lo => some (la, lo)
      | _, _ => none)
    = (path.filter (fun wp => wp.lat.isSome && wp.lon.isSome)).map
        (fun wp => (wp.lat.getD 0, wp.lon.getD 0)) := by
  induction path with
  | nil => rfl
  | cons wp rest ih =>
    cases hla : wp.lat <;> cases hlo : wp.lon <;>
      simp [List.filterMap_cons, List.filter_cons, hla, hlo, ih]

/-- The decoding loop keeps, in order, exactly the long-enough vectors. -/
lemma decodeLoop_eq (l : List RawState) :
    decodeLoop l = (l.filter (fun s => decide (17 ≤ s.length))).map decodeState := by
  induction l with
  | nil => rfl
  | cons s rest ih =>
    by_cases h : 17 ≤ s.length <;>
      simp [decodeLoop, List.filter_cons, h, ih]

/-! ## Claims -/

/-- C9: `get_aircraft_category_name` maps each code 0-20 through the closed
21-entry table (code 6 to "Heavy (> 300,000 lbs)"), every code outside the
table and an absent code to "Unknown", and the decoded record stores the raw
code (or null) untouched by this display mapping. -/
theorem c9_category_mapping :
    categoriesTable.map Prod.fst
      = [0, 1, 2, 3, 4, 5, 6, 7, 8, 9, 10, 11, 12, 13, 14, 15, 16, 17, 18, 19, 20]
    ∧ get_aircraft_category_name (some 6) = "Heavy (> 300,000 lbs)"
    ∧ get_aircraft_category_name (some 99) = "Unknown"
    ∧ get_aircraft_category_name none = "Unknown"
    ∧ (∀ c : Int, c < 0 ∨ 20 < c → get_aircraft_category_name (some c) = "Unknown")
    ∧ (∀ s : RawState, (decodeState s).category
        = if 17 < s.length then s.getD 17 JVal.null else JVal.null) := by
  refine ⟨by decide, by decide, by decide, rfl, ?_, fun s => rfl⟩
  intro c hc
  have hkeys : ∀ p ∈ categoriesTable, 0 ≤ p.1 ∧ p.1 ≤ 20 := by decide
  simp [get_aircraft_category_name, lookup_none_outside c categoriesTable hkeys hc]

/-- C9 witness: concrete evaluations, including a code outside the table. -/
theorem c9_category_mapping_witness :
    get_aircraft_category_name (some 99) = "Unknown"
    ∧ get_aircraft_category_name (some (-5)) = "Unknown" :=
  ⟨c9_category_mapping.2.2.1, c9_category_mapping.2.2.2.2.1 (-5) (Or.inl (by decide))⟩

/-- C7: `fetch_live_track` always returns a plain list: an empty identifier,
a failed request, or a payload without a `path` all give `[]`; from a
present path it keeps, in upstream order, exactly the waypoints with both
coordinates present, as `(lat, lon)` pairs. -/
theorem c7_track_fetch :
    (∀ resp, fetch_live_track "" resp = [])
    ∧ (∀ icao24, fetch_live_track icao24 none = [])
    ∧ (∀ (icao24 : String) (path : List Waypoint), icao24 ≠ "" →
        fetch_live_track icao24 (some path)
          = (path.filter (fun wp => wp.lat.isSome && wp.lon.isSome)).map
              (fun wp => (wp.lat.getD 0, wp.lon.getD 0)))
    ∧ (∀ (icao24 : String) (pre post : List Waypoint) (wp : Waypoint),
        wp.lat = none ∨ wp.lon = none →
        fetch_live_track icao24 (some (pre ++ wp :: post))
          = fetch_live_track icao24 (some (pre ++ post))) := by
  refine ⟨fun resp => rfl, fun icao24 => by simp [fetch_live_track], ?_, ?_⟩
  · intro icao24 path hic
    simp only [fetch_live_track, if_neg hic]
    exact trackCoords_eq path
  · intro icao24 pre post wp h
    by_cases hic : icao24 = ""
    · simp [fetch_live_track, hic]
    · simp only [fetch_live_track, if_neg hic, trackCoords_eq,
        List.filter_append, List.filter_cons]
      have : (wp.lat.isSome && wp.lon.isSome) = false := by
        rcases h with h | h <;> simp [h]
      rw [this]
      simp

/-- C7 witness: concrete evaluations of the three interesting paths. -/
theorem c7_track_fetch_witness :
    fetch_live_track "" (some [⟨JVal.null, some 1, some 2, JVal.null, JVal.null, JVal.null⟩]) = []
    ∧ fetch_live_track "a0b1c2" none = []
    ∧ fetch_live_track "a0b1c2"
        (some [⟨JVal.null, some 10, some 20, JVal.null, JVal.null, JVal.null⟩,
               ⟨JVal.null, none, some 30, JVal.null, JVal.null, JVal.null⟩,
               ⟨JVal.null, some 40, some 50, JVal.null, JVal.null, JVal.null⟩])
      = [(10, 20), (40, 50)] := by
  refine ⟨c7_track_fetch.1 _, c7_track_fetch.2.1 _, ?_⟩
  rw [c7_track_fetch.2.2.1 "a0b1c2" _ (by decide)]
  rfl

/-- C4: `fetch_all_aircraft_states` silently drops raw vectors shorter than
17 positions (removing one such vector from the batch leaves the output
unchanged), decodes a 17-position vector to a record with null category,
stores the raw position 17 as the category of longer vectors, and returns
the decoded records in input order. -/
theorem c4_decode_states :
    (∀ l : List RawState, fetch_all_aircraft_states (some l)
        = (l.filter (fun s => decide (17 ≤ s.length))).map decodeState)
    ∧ (∀ s : RawState, s.length = 17 → (decodeState s).category = JVal.null)
    ∧ (∀ s : RawState, 18 ≤ s.length → (decodeState s).category = s.getD 17 JVal.null)
    ∧ (∀ (pre post : List RawState) (s : RawState), s.length < 17 →
        fetch_all_aircraft_states (some (pre ++ s :: post))
          = fetch_all_aircraft_states (some (pre ++ post))) := by
  refine ⟨fun l => decodeLoop_eq l, ?_, ?_, ?_⟩
  · intro s h
    simp [decodeState, h]
  · intro s h
    have h17 : 17 < s.length := by omega
    simp [decodeState, h17]
  · intro pre post s h
    have hs : decide (17 ≤ s.length) = false := by simp; omega
    simp only [fetch_all_aircraft_states, decodeLoop_eq, List.filter_append,
      List.filter_cons, hs]
    simp

/-- C4 witness: a 16-position vector is dropped, a 17-position one decodes
with null category, an 18-position one carries its raw category code. -/
theorem c4_decode_states_witness :
    fetch_all_aircraft_states (some [List.replicate 16 JVal.null])
      = []
    ∧ (decodeState (List.replicate 17 JVal.null)).category = JVal.null
    ∧ (decodeState (List.replicate 17 JVal.null ++ [JVal.int 6])).category = JVal.int 6 := by
  refine ⟨?_, c4_decode_states.2.1 _ (by decide), ?_⟩
  · rw [c4_decode_states.1]
    rfl
  · rw [c4_decode_states.2.2.1 _ (by decide)]
    rfl

/-- C5: with a minimum or maximum altitude bound present, a record whose
barometric altitude is null never appears in the output, whatever its other
fields; and the spec's three-state example filtered with `min_altitude =
1000` yields exactly its first and third records. -/
theorem c5_altitude_fails_closed :
    (∀ (l : List AircraftState) (f : FilterSpec) (x : AircraftState),
        x.baro_altitude = JVal.null →
        f.min_altitude ≠ none ∨ f.max_altitude ≠ none →
        x ∉ filter_aircraft l f)
    ∧ filter_aircraft [exAlt1, exAlt2, exAlt3] { min_altitude := some 1000 }
        = [exAlt1, exAlt3] := by
  constructor
  · intro l f x hx hf hmem
    rw [filter_aircraft_eq] at hmem
    have hm := (List.mem_filter.mp hmem).2
    rcases hf with hf | hf
    · rcases Option.ne_none_iff_exists'.mp hf with ⟨m, hm'⟩
      simp [matchesFilters, miPred, hm', hx] at hm
    · rcases Option.ne_none_iff_exists'.mp hf with ⟨m, hm'⟩
      simp [maPred, matchesFilters, hm', hx] at hm
  · decide

/-- C5 witness: the general part applied to the example's null-altitude
record. -/
theorem c5_altitude_fails_closed_witness :
    exAlt2 ∉ filter_aircraft [exAlt1, exAlt2, exAlt3] { min_altitude := some 1000 } :=
  c5_altitude_fails_closed.1 _ _ _ (by decide) (Or.inl (by decide))

/-- C6: `filter_aircraft` returns an order-preserving subsequence of its
input, membership is exactly the conjunction of the six (individually
optional) constraints, the empty filter spec returns the input unchanged,
and the case-insensitive callsign example keeps "EJA123" and "eja999" while
dropping "UAL45". -/
theorem c6_filter_composition :
    (∀ (l : List AircraftState) (f : FilterSpec), (filter_aircraft l f).Sublist l)
    ∧ (∀ (l : List AircraftState) (f : FilterSpec) (x : AircraftState),
        x ∈ filter_aircraft l f ↔ x ∈ l ∧ matchesFilters f x = true)
    ∧ (∀ l : List AircraftState, filter_aircraft l {} = l)
    ∧ filter_aircraft [exEJA1, exUAL, exEJA2] { callsign_pattern := some "EJA" }
        = [exEJA1, exEJA2] := by
  refine ⟨?_, ?_, ?_, by decide⟩
  · intro l f
    rw [filter_aircraft_eq]
    exact List.filter_sublist l
  · intro l f x
    rw [filter_aircraft_eq]
    exact List.mem_filter
  · intro l
    rw [filter_aircraft_eq]
    exact List.filter_true l

/-- C6 witness: concrete instances of the subsequence and membership parts. -/
theorem c6_filter_composition_witness :
    (filter_aircraft [exEJA1, exUAL, exEJA2]
        { callsign_pattern := some "EJA" }).Sublist [exEJA1, exUAL, exEJA2]
    ∧ (exUAL ∈ filter_aircraft [exEJA1, exUAL, exEJA2]
          { callsign_pattern := some "EJA" } ↔
        exUAL ∈ [exEJA1, exUAL, exEJA2]
          ∧ matchesFilters { callsign_pattern := some "EJA" } exUAL = true) :=
  ⟨c6_filter_composition.1 _ _, c6_filter_composition.2.1 _ _ _⟩

/-- C2: a present (truthy) cached token whose expiry is more than 60 units
past the cache-test time is returned untouched with zero network calls;
otherwise exactly one exchange happens, and a successful exchange replaces
the cached token and its expiry (current time plus `expires_in`, default
1800) before returning the new token. -/
theorem c2_token_cache :
    (∀ (st : TokenState) (now nowExp : Int) (ex : ExchangeResult),
        hasToken st = true → now < st.token_expires_at - 60 →
        get_access_token st now nowExp ex = (st.access_token, st, 0))
    ∧ (∀ (st : TokenState) (now nowExp : Int) (tok : String) (ei : Option Int),
        ¬(hasToken st = true ∧ now < st.token_expires_at - 60) →
        get_access_token st now nowExp (ExchangeResult.ok tok ei)
          = (some tok, ⟨some tok, nowExp + ei.getD 1800⟩, 1))
    ∧ (∀ (st : TokenState) (now nowExp : Int) (ex : ExchangeResult),
        ¬(hasToken st = true ∧ now < st.token_expires_at - 60) →
        (get_access_token st now nowExp ex).2.2 = 1) := by
  refine ⟨?_, ?_, ?_⟩
  · intro st now nowExp ex h1 h2
    simp [get_access_token, h1, h2]
  · intro st now nowExp tok ei h
    rw [get_access_token.eq_def, if_neg]
    simp only [Bool.and_eq_true, decide_eq_true_eq]
    exact h
  · intro st now nowExp ex h
    rw [get_access_token.eq_def, if_neg]
    · cases ex <;> rfl
    · simp only [Bool.and_eq_true, decide_eq_true_eq]
      exact h

/-- C2 witness: a cache hit at time 0 against expiry 10000, and a refresh
with `expires_in` absent defaulting the new expiry to `now + 1800`. -/
theorem c2_token_cache_witness :
    get_access_token ⟨some "tokA", 10000⟩ 0 0 ExchangeResult.err
      = (some "tokA", ⟨some "tokA", 10000⟩, 0)
    ∧ get_access_token ⟨none, 0⟩ 5 5 (ExchangeResult.ok "tokB" none)
      = (some "tokB", ⟨some "tokB", 1805⟩, 1) :=
  ⟨c2_token_cache.1 ⟨some "tokA", 10000⟩ 0 0 ExchangeResult.err (by decide) (by decide),
   c2_token_cache.2.1 ⟨none, 0⟩ 5 5 "tokB" none (by decide)⟩

/-- C3: when the exchange is attempted and fails — transport error, non-2xx
status, or a payload without `access_token` — the function returns `None`
and both cached globals are exactly what they were before the call. -/
theorem c3_failure_preserves_cache :
    ∀ (st : TokenState) (now nowExp : Int),
      ¬(hasToken st = true ∧ now < st.token_expires_at - 60) →
      get_access_token st now nowExp ExchangeResult.err = (none, st, 1) := by
  intro st now nowExp h
  rw [get_access_token.eq_def, if_neg]
  simp only [Bool.and_eq_true, decide_eq_true_eq]
  exact h

/-- C3 witness: a failed refresh of a stale cached token leaves it in
place. -/
theorem c3_failure_preserves_cache_witness :
    get_access_token ⟨some "old", 100⟩ 90 90 ExchangeResult.err
      = (none, ⟨some "old", 100⟩, 1) :=
  c3_failure_preserves_cache ⟨some "old", 100⟩ 90 90 (by decide)

/-- A request run against a cached token that is still well inside its
validity window at every clock reading, whose first endpoint GET returns
401 and whose retry succeeds.  The exchange outcomes are irrelevant: no
exchange is reached. -/
def c1Env : ReqEnv Nat :=
  { t1 := 0, t2 := 0, t3 := 0, t4 := 0
    ex1 := ExchangeResult.err, ex2 := ExchangeResult.err
    r1 := HttpResp.unauthorized, r2 := HttpResp.ok 7 }

/-- The cached-token state for the C1 counterexample: expiry far in the
future relative to the clock readings of `c1Env`. -/
def c1St : TokenState := ⟨some "tokA", 10000⟩

/-- C1 counterexample: on this request the first attempt returns 401, yet
no re-authentication happens at all (zero exchange POSTs) — `get_access_token`
honours the cache validity window, so the retry reuses the very same cached
token instead of an untrusted-cache fresh one.  The two-endpoint-call part
does hold. -/
theorem c1_counterexample :
    c1Env.r1 = HttpResp.unauthorized
    ∧ (make_opensky_request c1St c1Env).authCalls = 0
    ∧ (make_opensky_request c1St c1Env).tokensUsed = ["tokA", "tokA"]
    ∧ (make_opensky_request c1St c1Env).epCalls = 2
    ∧ (make_opensky_request c1St c1Env).result = some 7 :=
  ⟨rfl, rfl, rfl, rfl, rfl⟩

/-- C1 amended: on a first-attempt 401 the client calls the token accessor
once more — which returns the cached token unchanged while it is inside the
validity window, and performs a fresh exchange only otherwise — and retries
the same call exactly once with the token so obtained; a second
authorization failure is terminal, exactly two endpoint calls are made, and
no request ever makes a third. -/
theorem c1_single_retry :
    (∀ (α : Type) (st : TokenState) (env : ReqEnv α),
        (make_opensky_request st env).epCalls ≤ 2)
    ∧ (∀ (α : Type) (st : TokenState) (env : ReqEnv α),
        env.r1 = HttpResp.unauthorized →
        tokenTruthy (get_access_token st env.t1 env.t2 env.ex1).1 = true →
        tokenTruthy (get_access_token (get_access_token st env.t1 env.t2 env.ex1).2.1
            env.t3 env.t4 env.ex2).1 = true →
        (make_opensky_request st env).epCalls = 2
        ∧ (make_opensky_request st env).tokensUsed
            = [(get_access_token st env.t1 env.t2 env.ex1).1.getD "",
               (get_access_token (get_access_token st env.t1 env.t2 env.ex1).2.1
                  env.t3 env.t4 env.ex2).1.getD ""]
        ∧ (make_opensky_request st env).authCalls
            = (get_access_token st env.t1 env.t2 env.ex1).2.2
              + (get_access_token (get_access_token st env.t1 env.t2 env.ex1).2.1
                  env.t3 env.t4 env.ex2).2.2
        ∧ (env.r2 = HttpResp.unauthorized → (make_opensky_request st env).result = none)
        ∧ (∀ b, env.r2 = HttpResp.ok b → (make_opensky_request st env).result = some b)) := by
  constructor
  · intro α st env
    rw [make_opensky_request]
    by_cases h1 : tokenTruthy (get_access_token st env.t1 env.t2 env.ex1).1
    · simp only [h1, Bool.not_true, Bool.false_eq_true, if_false]
      cases env.r1 <;> simp only
      · omega
      · by_cases h2 : tokenTruthy (get_access_token
            (get_access_token st env.t1 env.t2 env.ex1).2.1 env.t3 env.t4 env.ex2).1
        · simp only [h2, Bool.not_true, Bool.false_eq_true, if_false]
          cases env.r2 <;> simp
        · simp only [h2, Bool.not_false, if_true]
          omega
      · omega
    · simp only [Bool.not_eq_true] at h1
      simp [h1]
  · intro α st env h401 h1 h2
    rw [make_opensky_request]
    simp only [h1, Bool.not_true, Bool.false_eq_true, if_false, h401, h2]
    cases henv : env.r2 with
    | ok b =>
      refine ⟨rfl, rfl, rfl, ?_, ?_⟩
      · intro h
        cases h
      · intro b' hb
        cases hb
        rfl
    | unauthorized =>
      refine ⟨rfl, rfl, rfl, ?_, ?_⟩
      · intro h
        rfl
      · intro b hb
        cases hb
    | err =>
      refine ⟨rfl, rfl, rfl, ?_, ?_⟩
      · intro h
        cases h
      · intro b hb
        cases hb

/-- C1 amended witness: the counterexample run, where both token reads are
cache hits, makes exactly two endpoint calls with the cached token and
returns the retry's payload. -/
theorem c1_single_retry_witness :
    (make_opensky_request c1St c1Env).epCalls = 2
    ∧ (make_opensky_request c1St c1Env).tokensUsed = ["tokA", "tokA"]
    ∧ (make_opensky_request c1St c1Env).result = some 7 := by
  have h := c1_single_retry.2 Nat c1St c1Env rfl (by decide) (by decide)
  exact ⟨h.1, by rw [h.2.1]; rfl, h.2.2.2.2 7 rfl⟩

/-- C8: the aircraft JSON carries the generation timestamp, its `total` is
the number of filtered records, that number is the combined size of the two
groups, and the groups partition the filtered records by the truthiness of
the on-ground flag: every filtered record lands in exactly one of `in_air`
and `on_ground`. -/
theorem c8_aircraft_json (resp : Option (List RawState)) (f : FilterSpec) (ts : Int) :
    (api_aircraft resp f ts).timestamp = ts
    ∧ (api_aircraft resp f ts).total
        = (filter_aircraft (fetch_all_aircraft_states resp) f).length
    ∧ (api_aircraft resp f ts).total
        = (api_aircraft resp f ts).in_air.length + (api_aircraft resp f ts).on_ground.length
    ∧ (∀ x : AircraftState,
        (x ∈ (api_aircraft resp f ts).in_air ∨ x ∈ (api_aircraft resp f ts).on_ground)
          ↔ x ∈ filter_aircraft (fetch_all_aircraft_states resp) f)
    ∧ (∀ x : AircraftState,
        ¬(x ∈ (api_aircraft resp f ts).in_air ∧ x ∈ (api_aircraft resp f ts).on_ground)) := by
  by_cases hd : (fetch_all_aircraft_states resp).isEmpty = true
  · have hnil : fetch_all_aircraft_states resp = [] := List.isEmpty_iff.mp hd
    refine ⟨?_, ?_, ?_, ?_, ?_⟩ <;>
      simp [api_aircraft, hd, hnil, filter_aircraft_eq]
  · have h := List.length_eq_length_filter_add
      (l := filter_aircraft (fetch_all_aircraft_states resp) f)
      (fun x => !pyTruthy x.on_ground)
    simp only [Bool.not_not] at h
    refine ⟨by simp [api_aircraft, hd], by simp [api_aircraft, hd],
      by simpa [api_aircraft, hd] using h, ?_, ?_⟩
    · intro x
      cases hb : pyTruthy x.on_ground <;>
        simp [api_aircraft, hd, List.mem_filter, hb]
    · intro x
      have hdisj : ∀ d : List AircraftState,
          ¬(x ∈ d.filter (fun y => !pyTruthy y.on_ground)
            ∧ x ∈ d.filter (fun y => pyTruthy y.on_ground)) := by
        rintro d ⟨h1, h2⟩
        have h1' := (List.mem_filter.mp h1).2
        have h2' := (List.mem_filter.mp h2).2
        simp [h2'] at h1'
      simpa [api_aircraft, hd] using hdisj (filter_aircraft (fetch_all_aircraft_states resp) f)

/-- C8 witness: a concrete two-record batch splits into one in-air and one
on-ground record with total 2 and the given timestamp. -/
theorem c8_aircraft_json_witness :
    (api_aircraft (some [List.replicate 17 JVal.null]) {} 42).timestamp = 42
    ∧ (api_aircraft (some [List.replicate 17 JVal.null]) {} 42).total
        = (filter_aircraft
            (fetch_all_aircraft_states (some [List.replicate 17 JVal.null])) {}).length
    ∧ (decodeState (List.replicate 17 JVal.null)
          ∈ (api_aircraft (some [List.replicate 17 JVal.null]) {} 42).in_air
        ∨ decodeState (List.replicate 17 JVal.null)
          ∈ (api_aircraft (some [List.replicate 17 JVal.null]) {} 42).on_ground) := by
  have h := c8_aircraft_json (some [List.replicate 17 JVal.null]) {} 42
  refine ⟨h.1, h.2.1, (h.2.2.2.1 _).mpr ?_⟩
  decide

/-- A non-empty default survives `or`-defaulting: the pattern the endpoints
put into the filter spec is never the empty string. -/
lemma pyOrStr_ne (a : Option String) (b : String) (hb : b ≠ "") :
    pyOrStr a b ≠ "" := by
  cases a with
  | none => simpa [pyOrStr] using hb
  | some s =>
    by_cases hs : s = ""
    · simpa [pyOrStr, hs] using hb
    · simp [pyOrStr, hs]

/-- C10: all three aircraft endpoints build their filter spec with callsign
pattern `'EJA'` whenever the `callsign` query parameter is absent or empty;
the pattern they install is always a non-empty string, so every record any
of these endpoints returns has passed the callsign substring constraint —
omitting the parameter never yields callsign-unconstrained results. -/
theorem c10_default_callsign :
    (∀ q : QueryArgs, q.callsign = none ∨ q.callsign = some "" →
        (apiAircraftFilters q).callsign_pattern = some "EJA"
        ∧ (apiMapFilters q).callsign_pattern = some "EJA"
        ∧ (apiTracksFilters q).callsign_pattern = some "EJA")
    ∧ (∀ q : QueryArgs,
        (apiAircraftFilters q).callsign_pattern = some (pyOrStr q.callsign "EJA")
        ∧ (apiMapFilters q).callsign_pattern = some (pyOrStr q.callsign "EJA")
        ∧ (apiTracksFilters q).callsign_pattern = some (pyOrStr q.callsign "EJA")
        ∧ pyOrStr q.callsign "EJA" ≠ "")
    ∧ (∀ (q : QueryArgs) (l : List AircraftState) (x : AircraftState),
        x ∈ filter_aircraft l (apiAircraftFilters q) →
        strContains (pyUpper x.callsign) (pyUpper (pyOrStr q.callsign "EJA")) = true) := by
  refine ⟨?_, ?_, ?_⟩
  · intro q h
    rcases h with h | h <;>
      simp [apiAircraftFilters, apiMapFilters, apiTracksFilters, pyOrStr, h]
  · intro q
    exact ⟨rfl, rfl, rfl, pyOrStr_ne _ _ (by decide)⟩
  · intro q l x hx
    rw [filter_aircraft_eq] at hx
    have hm := (List.mem_filter.mp hx).2
    simp only [matchesFilters, Bool.and_eq_true] at hm
    have hcs := hm.2
    have hne : pyOrStr q.callsign "EJA" ≠ "" := pyOrStr_ne _ _ (by decide)
    simpa [csPred, apiAircraftFilters, hne] using hcs

/-- C10 witness: with no query parameters the installed pattern is `'EJA'`
and a returned record's callsign contains it. -/
theorem c10_default_callsign_witness :
    (apiAircraftFilters {}).callsign_pattern = some "EJA"
    ∧ strContains (pyUpper exEJA1.callsign) (pyUpper (pyOrStr none "EJA")) = true :=
  ⟨(c10_default_callsign.1 {} (Or.inl rfl)).1,
   c10_default_callsign.2.2 {} [exEJA1] exEJA1 (by decide)⟩
